import Mathlib

/-!
Verification of the kernel-command-line merge module (src/kcmdline.c) of the
stubby boot stub.  Byte strings (CHAR8 buffers with an explicit length, as
returned by strlen, hence free of interior null bytes) are modelled as
`List Char`; the EFI status codes and the UnicodeSPrint diagnostics are
modelled as small inductive types.  Allocation is total in this embedding, so
the EFI_OUT_OF_RESOURCES paths of the source do not arise.
-/

set_option maxRecDepth 4000

namespace Stubby

/-- Status codes returned by the functions of src/kcmdline.c:
EFI_SUCCESS, EFI_SECURITY_VIOLATION and EFI_INVALID_PARAMETER. -/
inductive Status where
  | success
  | securityViolation
  | invalidParameter
deriving DecidableEq

/-- Diagnostics written through UnicodeSPrint into errmsg/errbuf in
src/kcmdline.c, one constructor per distinct message. -/
inductive Diag where
  | badChar (c : Char) (pos : Nat)
  | tooManyTokens
  | notAllowed (tok : List Char)
  | runtimeWithoutMarker
  | markerMultiple
  | markerNotFullToken
  | nsInBuiltin
  | nsInRuntime
deriving DecidableEq

/-- MAX_TOKENS from src/kcmdline.c line 8. -/
def MAX_TOKENS : Nat := 128

/-- The allowed-token table from src/kcmdline.c lines 11-19, each entry kept
as the literal string stored in the table (a leading caret flags a
leading-bytes-match entry). -/
def allowed : List (List Char) :=
  ["^console=".data, "^root=soci:".data, "root=atomix".data,
   "ro".data, "quiet".data, "verbose".data, "crashkernel=256M".data]

/-- Modelled from the spec: the byte-compare primitive strncmpa (C strncmp,
from the collaborator stra.c which is outside src/), used only through its
equality test.  On null-free byte strings, strncmp agreeing on the first n
bytes is exactly equality of the length-n truncations. -/
def strncmpaEq (a b : List Char) (n : Nat) : Bool :=
  a.take n == b.take n

/-- Modelled from the spec: the byte-search primitive strstra (C strstr, from
the collaborator stra.c which is outside src/): the index of the first
occurrence of needle in hay, none when there is no occurrence. -/
def strstraIdx (hay needle : List Char) : Option Nat :=
  if strncmpaEq needle hay needle.length then some 0
  else
    match hay with
    | [] => none
    | _ :: rest => (strstraIdx rest needle).map (· + 1)

/-- strstra viewed as a containment test (its result compared against NULL). -/
def containsSub (hay needle : List Char) : Bool :=
  (strstraIdx hay needle).isSome

/-- One iteration of the matching loop of is_allowed (src/kcmdline.c lines
26-38): a caret entry is stripped and compared on the first len-1 bytes; any
other entry requires equal length and then full comparison. -/
def entryMatches (token input : List Char) : Bool :=
  match token with
  | '^' :: rest => strncmpaEq rest input rest.length
  | _ => input.length == token.length && strncmpaEq token input token.length

/-- is_allowed from src/kcmdline.c lines 21-40: the input is accepted when
some table entry matches (the source returns at the first match, which gives
the same boolean). -/
def is_allowed (input : List Char) : Bool :=
  allowed.any (fun t => entryMatches t input)

/-- The byte walk of check_cmdline (src/kcmdline.c lines 64-91), error part:
at index i the character-range check runs first, then the `i >= MAX_TOKENS`
check.  Note that the source compares the byte index i against MAX_TOKENS,
not the token count. -/
def scanLoop (buf : List Char) (i : Nat) : Option Diag :=
  match buf with
  | [] => none
  | c :: rest =>
    if c.toNat < 0x20 || 0x7e < c.toNat then some (.badChar c i)
    else if MAX_TOKENS ≤ i then some .tooManyTokens
    else scanLoop rest (i + 1)

/-- The token accumulation of the same walk (start / num_toks in the source):
the maximal runs of non-space bytes, in order.  cur is the run currently
being accumulated. -/
def tokenizeAux (buf cur : List Char) : List (List Char) :=
  match buf with
  | [] => if cur.isEmpty then [] else [cur]
  | c :: rest =>
    if c = ' ' then
      if cur.isEmpty then tokenizeAux rest []
      else cur :: tokenizeAux rest []
    else tokenizeAux rest (cur ++ [c])

def tokenize (buf : List Char) : List (List Char) := tokenizeAux buf []

structure CheckResult where
  status : Status
  diag : Option Diag
deriving DecidableEq

/-- The final loop of check_cmdline (src/kcmdline.c lines 97-102): each
disallowed token overwrites the status and the message; the loop never
stops early. -/
def tokenLoop (acc : CheckResult) : List (List Char) → CheckResult
  | [] => acc
  | t :: ts =>
    tokenLoop (if is_allowed t then acc
               else ⟨.securityViolation, some (.notAllowed t)⟩) ts

/-- check_cmdline from src/kcmdline.c lines 44-110 (the allocation-failure
path does not arise: allocation is total in this embedding).  diag none
corresponds to errmsg left empty. -/
def check_cmdline (cmdline : List Char) : CheckResult :=
  match scanLoop cmdline 0 with
  | some d => ⟨.securityViolation, some d⟩
  | none => tokenLoop ⟨.success, none⟩ (tokenize cmdline)

/-- The marker from src/kcmdline.c line 122. -/
def marker : List Char := "STUBBY_RT_CLI1".data

/-- The reserved string from src/kcmdline.c line 123 (named `namespace` in
the source, which is a keyword here). -/
def nspace : List Char := "STUBBY_RT".data

/-- Lines 159-200 of get_cmdline: split builtin into part1/part2 around the
marker, or fail with EFI_INVALID_PARAMETER and the corresponding message. -/
def spliceBuiltin (secure : Bool) (builtin runtime : List Char) :
    Except Diag (List Char × List Char) :=
  if builtin.length != 0 then
    match strstraIdx builtin marker with
    | none =>
      if secure then
        if runtime.length != 0 then .error .runtimeWithoutMarker
        else .ok ([], [])
      else .ok (builtin ++ [' '], [])
    | some i =>
      if (strstraIdx (builtin.drop (i + marker.length)) marker).isSome then
        .error .markerMultiple
      else if !(((i == 0) || (builtin[i-1]? == some ' ')) &&
          ((builtin.length - marker.length - i == 0) ||
           (builtin[i + marker.length]? == some ' '))) then
        .error .markerNotFullToken
      else .ok (builtin.take i, builtin.drop (i + marker.length))
  else .ok ([], [])

structure GetCmdlineResult where
  status : Status
  diag : Option Diag
  cmdline : Option (List Char)
deriving DecidableEq

/-- get_cmdline from src/kcmdline.c lines 115-255 (allocation totalized).
cmdline is none exactly on the paths that leave *cmdline NULL; diag none
corresponds to an empty errbuf. -/
def get_cmdline (secure : Bool) (builtin runtime : List Char) :
    GetCmdlineResult :=
  match spliceBuiltin secure builtin runtime with
  | .error d => ⟨.invalidParameter, some d, none⟩
  | .ok (part1, part2) =>
    if containsSub part1 nspace || containsSub part2 nspace then
      ⟨.invalidParameter, some .nsInBuiltin, none⟩
    else if containsSub runtime nspace then
      ⟨.invalidParameter, some .nsInRuntime, none⟩
    else
      let chk := check_cmdline runtime
      if chk.status != Status.success &&
          (chk.status != Status.securityViolation || secure) then
        ⟨chk.status, chk.diag, none⟩
      else
        ⟨chk.status, chk.diag, some (part1 ++ runtime ++ part2)⟩

structure PrintResult where
  status : Status
  cmdline : Option (List Char)
deriving DecidableEq

/-- get_cmdline_with_print from src/kcmdline.c lines 265-307: it forwards
get_cmdline and turns EFI_SECURITY_VIOLATION into EFI_SUCCESS when not
secure. -/
def get_cmdline_with_print (secure : Bool) (builtin runtime : List Char) :
    PrintResult :=
  let r := get_cmdline secure builtin runtime
  if r.status == Status.securityViolation && !secure then ⟨.success, r.cmdline⟩
  else ⟨r.status, r.cmdline⟩

/-- The builtin contains the marker exactly once, standalone: the occurrence
found by strstra is the only one, the byte before it is line-start or a
space, and the byte after it is line-end or a space. -/
def markerStandaloneOnce (builtin : List Char) : Bool :=
  match strstraIdx builtin marker with
  | none => false
  | some i =>
    (strstraIdx (builtin.drop (i + marker.length)) marker).isNone &&
    ((i == 0) || (builtin[i-1]? == some ' ')) &&
    ((builtin.length == i + marker.length) ||
     (builtin[i + marker.length]? == some ' '))

/-- An allowlist entry with its caret flag stripped (`token = &token[1]` in
the source); entries without the flag are returned unchanged. -/
def stripFlag (t : List Char) : List Char :=
  if t.head? = some '^' then t.drop 1 else t

/-! ## Helper lemmas -/

theorem strstraIdx_some_take {hay needle : List Char} :
    ∀ {i : Nat}, strstraIdx hay needle = some i →
      (hay.drop i).take needle.length = needle := by
  induction hay with
  | nil =>
    intro i h
    rw [strstraIdx] at h
    split at h
    · rename_i hc
      cases h
      simp only [strncmpaEq, List.take_nil, beq_iff_eq] at hc
      simpa [List.take_length] using hc
    · simp at h
  | cons c rest ih =>
    intro i h
    rw [strstraIdx] at h
    split at h
    · rename_i hc
      cases h
      simp only [strncmpaEq, beq_iff_eq, List.take_length] at hc
      simpa [List.drop_zero] using hc.symm
    · rw [Option.map_eq_some'] at h
      obtain ⟨j, hj, hji⟩ := h
      subst hji
      simpa [List.drop_succ_cons] using ih hj

theorem strstraIdx_some_le {hay needle : List Char} {i : Nat}
    (h : strstraIdx hay needle = some i) :
    needle.length ≤ hay.length - i := by
  have ht := congrArg List.length (strstraIdx_some_take h)
  simp only [List.length_take, List.length_drop] at ht
  omega

theorem tokenLoop_append (acc : CheckResult) (ts : List (List Char))
    (t : List Char) :
    tokenLoop acc (ts ++ [t]) =
      if is_allowed t then tokenLoop acc ts
      else ⟨.securityViolation, some (.notAllowed t)⟩ := by
  induction ts generalizing acc with
  | nil => by_cases h : is_allowed t <;> simp [tokenLoop, h]
  | cons u ts ih =>
    by_cases h : is_allowed t <;> simp [tokenLoop, ih, h]

theorem tokenLoop_last (acc : CheckResult) (ts : List (List Char)) :
    tokenLoop acc ts =
      ((ts.filter (fun t => !is_allowed t)).getLast?).elim acc
        (fun t => ⟨.securityViolation, some (.notAllowed t)⟩) := by
  induction ts using List.reverseRecOn generalizing acc with
  | nil => simp [tokenLoop]
  | append_singleton ts t ih =>
    rw [tokenLoop_append]
    by_cases h : is_allowed t
    · rw [if_pos h, ih]
      simp [List.filter_append, h]
    · rw [if_neg h]
      simp [List.filter_append, h, List.getLast?_concat]

theorem check_cmdline_status (cmdline : List Char) :
    (check_cmdline cmdline).status = .success ∨
    (check_cmdline cmdline).status = .securityViolation := by
  rw [check_cmdline]
  cases scanLoop cmdline 0 with
  | some d => right; rfl
  | none =>
    rw [tokenLoop_last]
    cases ((tokenize cmdline).filter (fun t => !is_allowed t)).getLast? with
    | none => left; rfl
    | some t => right; rfl

theorem check_cmdline_success_diag {cmdline : List Char}
    (h : (check_cmdline cmdline).status = .success) :
    check_cmdline cmdline = ⟨.success, none⟩ := by
  rw [check_cmdline] at h ⊢
  cases hs : scanLoop cmdline 0 with
  | some d =>
    rw [hs] at h
    exact Status.noConfusion
      (show Status.securityViolation = Status.success from h)
  | none =>
    rw [hs] at h
    replace h : (tokenLoop ⟨.success, none⟩ (tokenize cmdline)).status =
      .success := h
    show tokenLoop ⟨.success, none⟩ (tokenize cmdline) = ⟨.success, none⟩
    rw [tokenLoop_last] at h ⊢
    cases hl : ((tokenize cmdline).filter (fun t => !is_allowed t)).getLast? with
    | none => rfl
    | some t => rw [hl] at h; simp at h

theorem strncmpaEq_snoc (needle xs : List Char) (c : Char) (hc : c ∉ needle) :
    strncmpaEq needle (xs ++ [c]) needle.length =
      strncmpaEq needle xs needle.length := by
  by_cases h : needle.length ≤ xs.length
  · rw [strncmpaEq, strncmpaEq, List.take_append_eq_append_take,
      Nat.sub_eq_zero_of_le h]
    simp
  · have hxs : xs.take needle.length = xs :=
      List.take_of_length_le (by omega)
    have hone : ([c] : List Char).length ≤ needle.length - xs.length := by
      simp
      omega
    rw [strncmpaEq, strncmpaEq, List.take_length, hxs,
      List.take_append_eq_append_take, hxs, List.take_of_length_le hone]
    have hl : (needle == xs ++ [c]) = false := by
      rw [beq_eq_false_iff_ne]
      intro heq
      exact hc (heq ▸ (by simp : c ∈ xs ++ [c]))
    have hr : (needle == xs) = false := by
      rw [beq_eq_false_iff_ne]
      intro heq
      have := congrArg List.length heq
      omega
    rw [hl, hr]

theorem containsSub_nil (needle : List Char) :
    containsSub [] needle = needle.isEmpty := by
  rw [containsSub, strstraIdx]
  by_cases h : needle = []
  · subst h; simp [strncmpaEq]
  · have hf : strncmpaEq needle [] needle.length = false := by
      simp [strncmpaEq, List.take_length, h]
    simp [hf, h]

theorem containsSub_cons (x : Char) (rest needle : List Char) :
    containsSub (x :: rest) needle =
      (strncmpaEq needle (x :: rest) needle.length ||
        containsSub rest needle) := by
  rw [containsSub, containsSub, strstraIdx]
  by_cases h : strncmpaEq needle (x :: rest) needle.length
  · simp [h]
  · simp [h]

theorem containsSub_snoc (xs needle : List Char) (c : Char)
    (hne : needle ≠ []) (hc : c ∉ needle) :
    containsSub (xs ++ [c]) needle = containsSub xs needle := by
  induction xs with
  | nil =>
    rw [List.nil_append, containsSub_nil]
    have h1 : containsSub [c] needle =
        (strncmpaEq needle ([] ++ [c]) needle.length ||
          containsSub [] needle) := containsSub_cons c [] needle
    rw [h1, strncmpaEq_snoc needle [] c hc, containsSub_nil]
    have hf : strncmpaEq needle [] needle.length = false := by
      simp [strncmpaEq, List.take_length, hne]
    simp [hf]
  | cons x xs ih =>
    rw [List.cons_append, containsSub_cons, containsSub_cons, ih]
    have hs := strncmpaEq_snoc needle (x :: xs) c hc
    rw [List.cons_append] at hs
    rw [hs]

/-- Evaluation of get_cmdline once the splice succeeded and no namespace
collision exists: the result is check_cmdline's status and diagnostic, and
the concatenation is produced unless the violation is fatal. -/
theorem get_cmdline_ok {secure : Bool} {builtin runtime p1 p2 : List Char}
    (hsp : spliceBuiltin secure builtin runtime = .ok (p1, p2))
    (h1 : containsSub p1 nspace = false) (h2 : containsSub p2 nspace = false)
    (hr : containsSub runtime nspace = false) :
    get_cmdline secure builtin runtime =
      if (check_cmdline runtime).status == Status.securityViolation && secure
      then ⟨(check_cmdline runtime).status, (check_cmdline runtime).diag, none⟩
      else ⟨(check_cmdline runtime).status, (check_cmdline runtime).diag,
        some (p1 ++ runtime ++ p2)⟩ := by
  rw [get_cmdline, hsp]
  rcases check_cmdline_status runtime with hs | hs <;>
    cases secure <;>
      simp [hs, h1, h2, hr]

/-- When strstra finds the marker exactly once and both token boundaries
hold, the splice succeeds with the bytes before and after the marker. -/
theorem spliceBuiltin_marker {secure : Bool} {builtin runtime : List Char}
    {i : Nat}
    (hfind : strstraIdx builtin marker = some i)
    (honce : strstraIdx (builtin.drop (i + marker.length)) marker = none)
    (hpre : i = 0 ∨ builtin[i-1]? = some ' ')
    (hpost : builtin.length = i + marker.length ∨
      builtin[i + marker.length]? = some ' ') :
    spliceBuiltin secure builtin runtime =
      .ok (builtin.take i, builtin.drop (i + marker.length)) := by
  have hle := strstraIdx_some_le hfind
  have hm : marker.length = 14 := by decide
  have hb : (builtin.length != 0) = true := by
    simp only [bne_iff_ne, ne_eq]
    omega
  have hcond : (((i == 0) || (builtin[i-1]? == some ' ')) &&
      ((builtin.length - marker.length - i == 0) ||
        (builtin[i + marker.length]? == some ' '))) = true := by
    rw [Bool.and_eq_true, Bool.or_eq_true, Bool.or_eq_true]
    refine ⟨?_, ?_⟩
    · rcases hpre with h | h
      · exact Or.inl (by simp [h])
      · exact Or.inr (by simp [h])
    · rcases hpost with h | h
      · refine Or.inl ?_
        simp only [beq_iff_eq]
        omega
      · exact Or.inr (by simp [h])
  simp [spliceBuiltin, hb, hfind, honce, hcond]

/-- Non-empty builtin without marker, insecure: part1 is the builtin with an
injected trailing space, part2 is empty. -/
theorem spliceBuiltin_no_marker_insecure {builtin runtime : List Char}
    (hne : builtin.length ≠ 0)
    (hnm : strstraIdx builtin marker = none) :
    spliceBuiltin false builtin runtime = .ok (builtin ++ [' '], []) := by
  have hb : (builtin.length != 0) = true := by simpa using hne
  simp [spliceBuiltin, hb, hnm]

/-! ## Claims -/

/-- C2 (code bug): check_cmdline raises the too-many-tokens diagnostic from
the byte index, not the token count.  A single-token line of 129 bytes —
well under the 128-token cap — is rejected with the too-many-tokens message,
while a line of 129 one-byte tokens is rejected for its length (257 bytes),
not for its token count. -/
theorem c2_length_gate_not_token_count :
    ((tokenize (List.replicate 129 'a')).length = 1 ∧
      check_cmdline (List.replicate 129 'a') =
        ⟨.securityViolation, some .tooManyTokens⟩) ∧
    ((tokenize (List.intercalate [' '] (List.replicate 129 ['a']))).length =
        129 ∧
      check_cmdline (List.intercalate [' '] (List.replicate 129 ['a'])) =
        ⟨.securityViolation, some .tooManyTokens⟩) := by
  decide

/-- C3 counterexample: `root=atomix` is an exact-match entry of the table
(it carries no caret flag), so the input `root=atomixFOO` is rejected, not
accepted. -/
theorem c3_counterexample : is_allowed "root=atomixFOO".data = false := by
  decide

/-- C3 (amended): for a caret-flagged allowlist entry, is_allowed accepts
every candidate whose leading bytes equal the stripped pattern, regardless
of trailing content and with no boundary check. -/
theorem c3_caret_entry_accepts_extensions (rest tail input : List Char)
    (hmem : ('^' :: rest) ∈ allowed) (hext : rest ++ tail = input) :
    is_allowed input = true := by
  rw [is_allowed, List.any_eq_true]
  refine ⟨'^' :: rest, hmem, ?_⟩
  rw [entryMatches]
  rw [strncmpaEq, List.take_length, ← hext, List.take_left]
  exact beq_self_eq_true rest

/-- C3 witness: the caret entry `^root=soci:` accepts the extended candidate
`root=soci:whatever`. -/
theorem c3_caret_entry_accepts_extensions_witness :
    ('^' :: "root=soci:".data) ∈ allowed ∧
      is_allowed "root=soci:whatever".data = true :=
  ⟨by decide,
    c3_caret_entry_accepts_extensions "root=soci:".data "whatever".data
      "root=soci:whatever".data (by decide) (by decide)⟩

/-- C4 counterexample: the literal table entry `^console=` (caret included)
is itself rejected by is_allowed. -/
theorem c4_counterexample : is_allowed "^console=".data = false := by decide

/-- C4 (amended): every table entry is accepted by is_allowed once its caret
flag is stripped (entries without the flag are taken as they are). -/
theorem c4_stripped_entries_allowed :
    ∀ t ∈ allowed, is_allowed (stripFlag t) = true := by decide

/-- C4 witness: the stripped first entry is accepted. -/
theorem c4_stripped_entries_allowed_witness :
    is_allowed (stripFlag "^console=".data) = true :=
  c4_stripped_entries_allowed "^console=".data (by decide)

/-- C5: when the byte walk raises no diagnostic and some token is
disallowed, check_cmdline returns EFI_SECURITY_VIOLATION and the diagnostic
names exactly the last disallowed token in left-to-right scan order. -/
theorem c5_last_disallowed_reported (runtime bad : List Char)
    (hscan : scanLoop runtime 0 = none)
    (hlast : ((tokenize runtime).filter (fun t => !is_allowed t)).getLast? =
      some bad) :
    check_cmdline runtime = ⟨.securityViolation, some (.notAllowed bad)⟩ := by
  rw [check_cmdline, hscan, tokenLoop_last, hlast]
  rfl

/-- C5 witness: in `foo quiet bar` both `foo` and `bar` are disallowed and
the diagnostic reports `bar`, the last one. -/
theorem c5_last_disallowed_reported_witness :
    check_cmdline "foo quiet bar".data =
      ⟨.securityViolation, some (.notAllowed "bar".data)⟩ :=
  c5_last_disallowed_reported "foo quiet bar".data "bar".data (by decide)
    (by decide)

/-- C1 counterexample: the runtime line `console=STUBBY_RT` passes
validation (its one token matches the caret entry `^console=`), the builtin
holds the marker exactly once as a standalone token, yet the Secure merge
fails: the namespace check on the raw runtime line runs regardless of
validation. -/
theorem c1_counterexample :
    markerStandaloneOnce "root=atomix STUBBY_RT_CLI1 ro".data = true ∧
    (check_cmdline "console=STUBBY_RT".data).status = .success ∧
    get_cmdline true "root=atomix STUBBY_RT_CLI1 ro".data
        "console=STUBBY_RT".data =
      ⟨.invalidParameter, some .nsInRuntime, none⟩ := by decide

/-- C1 (amended): in Secure mode, when the builtin holds the marker exactly
once as a standalone token, the runtime line passes validation, and the
reserved namespace string occurs in none of the spliced parts nor in the
runtime line, get_cmdline succeeds returning the bytes before the marker,
then the runtime, then the bytes after it, the marker text discarded. -/
theorem c1_secure_marker_merge (builtin runtime : List Char) (i : Nat)
    (hfind : strstraIdx builtin marker = some i)
    (honce : strstraIdx (builtin.drop (i + marker.length)) marker = none)
    (hpre : i = 0 ∨ builtin[i-1]? = some ' ')
    (hpost : builtin.length = i + marker.length ∨
      builtin[i + marker.length]? = some ' ')
    (hns1 : containsSub (builtin.take i) nspace = false)
    (hns2 : containsSub (builtin.drop (i + marker.length)) nspace = false)
    (hnsr : containsSub runtime nspace = false)
    (hck : (check_cmdline runtime).status = .success) :
    get_cmdline true builtin runtime =
      ⟨.success, none,
        some (builtin.take i ++ runtime ++
          builtin.drop (i + marker.length))⟩ := by
  have hsp := @spliceBuiltin_marker true builtin runtime i
    hfind honce hpre hpost
  rw [get_cmdline_ok hsp hns1 hns2 hnsr, check_cmdline_success_diag hck]
  simp

/-- C1 witness: the spec example, merge(Secure,
`root=atomix STUBBY_RT_CLI1 ro`, `quiet`) returns `root=atomix quiet ro`. -/
theorem c1_secure_marker_merge_witness :
    get_cmdline true "root=atomix STUBBY_RT_CLI1 ro".data "quiet".data =
      ⟨.success, none, some "root=atomix quiet ro".data⟩ :=
  (c1_secure_marker_merge "root=atomix STUBBY_RT_CLI1 ro".data "quiet".data
    12 (by decide) (by decide) (by decide) (by decide) (by decide) (by decide)
    (by decide) (by decide)).trans (by decide)

/-- C6 counterexample: a non-empty builtin without the marker that contains
the reserved namespace string makes the Insecure merge fail with
EFI_INVALID_PARAMETER instead of producing builtin ++ " " ++ runtime. -/
theorem c6_counterexample :
    "x STUBBY_RTy".data.length ≠ 0 ∧
    strstraIdx "x STUBBY_RTy".data marker = none ∧
    get_cmdline false "x STUBBY_RTy".data "evilparam".data =
      ⟨.invalidParameter, some .nsInBuiltin, none⟩ := by decide

/-- C6 (amended): for every non-empty builtin line without the marker, in
Secure mode any non-empty runtime line fails with EFI_INVALID_PARAMETER;
in Insecure mode, provided the reserved namespace string occurs neither in
the builtin nor in the runtime line, the whole builtin becomes the part
before the runtime with one injected trailing space and the part after is
empty, the overall operation succeeding with builtin ++ " " ++ runtime. -/
theorem c6_no_marker_modes (builtin runtime : List Char)
    (hne : builtin.length ≠ 0)
    (hnm : strstraIdx builtin marker = none) :
    (runtime.length ≠ 0 →
      get_cmdline true builtin runtime =
        ⟨.invalidParameter, some .runtimeWithoutMarker, none⟩) ∧
    (containsSub builtin nspace = false →
      containsSub runtime nspace = false →
      get_cmdline_with_print false builtin runtime =
        ⟨.success, some (builtin ++ [' '] ++ runtime)⟩) := by
  constructor
  · intro hr
    have hb : (builtin.length != 0) = true := by simpa using hne
    have hrb : (runtime.length != 0) = true := by simpa using hr
    have hsp : spliceBuiltin true builtin runtime =
        .error .runtimeWithoutMarker := by
      simp [spliceBuiltin, hb, hrb, hnm]
    rw [get_cmdline, hsp]
  · intro hbn hrn
    have hsp := @spliceBuiltin_no_marker_insecure builtin runtime hne hnm
    have h1 : containsSub (builtin ++ [' ']) nspace = false := by
      rw [containsSub_snoc builtin nspace ' ' (by decide) (by decide)]
      exact hbn
    have hg := get_cmdline_ok hsp h1 (by decide) hrn
    simp only [Bool.and_false, Bool.false_eq_true, if_false] at hg
    rw [get_cmdline_with_print, hg]
    rcases check_cmdline_status runtime with hs | hs <;>
      simp [hs]

/-- C6 witness: merge(Insecure, `console=ttyS0`, `evilparam`) yields
`console=ttyS0 evilparam` while merge(Secure, `console=ttyS0`, `anything`)
fails EFI_INVALID_PARAMETER. -/
theorem c6_no_marker_modes_witness :
    get_cmdline true "console=ttyS0".data "anything".data =
      ⟨.invalidParameter, some .runtimeWithoutMarker, none⟩ ∧
    get_cmdline_with_print false "console=ttyS0".data "evilparam".data =
      ⟨.success, some "console=ttyS0 evilparam".data⟩ :=
  ⟨(c6_no_marker_modes "console=ttyS0".data "anything".data (by decide)
      (by decide)).1 (by decide),
    ((c6_no_marker_modes "console=ttyS0".data "evilparam".data (by decide)
      (by decide)).2 (by decide) (by decide)).trans (by decide)⟩

/-- C7: for a builtin holding exactly one marker occurrence, get_cmdline
fails with EFI_INVALID_PARAMETER and the not-a-full-token message unless
the byte before the occurrence is line-start or a space and the byte after
it is line-end or a space; when both hold, the splice proceeds, cutting the
builtin around the marker. -/
theorem c7_marker_token_boundary (secure : Bool)
    (builtin runtime : List Char) (i : Nat)
    (hfind : strstraIdx builtin marker = some i)
    (honce : strstraIdx (builtin.drop (i + marker.length)) marker = none) :
    (¬ ((i = 0 ∨ builtin[i-1]? = some ' ') ∧
        (builtin.length = i + marker.length ∨
          builtin[i + marker.length]? = some ' ')) →
      get_cmdline secure builtin runtime =
        ⟨.invalidParameter, some .markerNotFullToken, none⟩) ∧
    (((i = 0 ∨ builtin[i-1]? = some ' ') ∧
        (builtin.length = i + marker.length ∨
          builtin[i + marker.length]? = some ' ')) →
      spliceBuiltin secure builtin runtime =
        .ok (builtin.take i, builtin.drop (i + marker.length))) := by
  have hle := strstraIdx_some_le hfind
  have hm : marker.length = 14 := by decide
  constructor
  · intro hvio
    have hb : (builtin.length != 0) = true := by
      simp only [bne_iff_ne, ne_eq]
      omega
    have hcond : (((i == 0) || (builtin[i-1]? == some ' ')) &&
        ((builtin.length - marker.length - i == 0) ||
          (builtin[i + marker.length]? == some ' '))) = false := by
      cases hcc : (((i == 0) || (builtin[i-1]? == some ' ')) &&
          ((builtin.length - marker.length - i == 0) ||
            (builtin[i + marker.length]? == some ' '))) with
      | false => rfl
      | true =>
        exfalso
        apply hvio
        rw [Bool.and_eq_true, Bool.or_eq_true, Bool.or_eq_true] at hcc
        obtain ⟨ha, hbz⟩ := hcc
        constructor
        · rcases ha with h | h
          · exact Or.inl (by simpa using h)
          · exact Or.inr (by simpa using h)
        · rcases hbz with h | h
          · refine Or.inl ?_
            have hz : builtin.length - marker.length - i = 0 := by
              simpa using h
            omega
          · exact Or.inr (by simpa using h)
    have hsp : spliceBuiltin secure builtin runtime =
        .error .markerNotFullToken := by
      simp [spliceBuiltin, hb, hfind, honce, hcond]
    rw [get_cmdline, hsp]
  · intro hok
    exact spliceBuiltin_marker hfind honce hok.1 hok.2

/-- C7 witness: in `a STUBBY_RT_CLI1x` the marker occurs once but the byte
after it is `x`, so the merge fails with the not-a-full-token message. -/
theorem c7_marker_token_boundary_witness :
    get_cmdline true "a STUBBY_RT_CLI1x".data [] =
      ⟨.invalidParameter, some .markerNotFullToken, none⟩ :=
  (c7_marker_token_boundary true "a STUBBY_RT_CLI1x".data [] 2 (by decide)
    (by decide)).1 (by decide)

/-- C8: after a successful splice, any occurrence of the reserved namespace
string in part1, part2 or the raw runtime line makes get_cmdline fail with
EFI_INVALID_PARAMETER naming the offending segment, in Secure and Insecure
mode alike. -/
theorem c8_namespace_leak_mode_independent (secure : Bool)
    (builtin runtime p1 p2 : List Char)
    (hsp : spliceBuiltin secure builtin runtime = .ok (p1, p2))
    (hns : containsSub p1 nspace = true ∨ containsSub p2 nspace = true ∨
      containsSub runtime nspace = true) :
    (get_cmdline secure builtin runtime).status = .invalidParameter ∧
    ((get_cmdline secure builtin runtime).diag = some .nsInBuiltin ∨
      (get_cmdline secure builtin runtime).diag = some .nsInRuntime) ∧
    (get_cmdline secure builtin runtime).cmdline = none := by
  rw [get_cmdline, hsp]
  rcases hns with h | h | h
  · simp [h]
  · simp [h]
  · by_cases h1 : containsSub p1 nspace
    · simp [h1]
    · by_cases h2 : containsSub p2 nspace
      · simp [h2]
      · simp [h1, h2, h]

/-- C8 witness: merge(*, builtin="", runtime="contains STUBBY_RT here")
fails EFI_INVALID_PARAMETER under both modes. -/
theorem c8_namespace_leak_mode_independent_witness :
    ((get_cmdline true [] "contains STUBBY_RT here".data).status =
        .invalidParameter ∧
      (get_cmdline true [] "contains STUBBY_RT here".data).cmdline = none) ∧
    ((get_cmdline false [] "contains STUBBY_RT here".data).status =
        .invalidParameter ∧
      (get_cmdline false [] "contains STUBBY_RT here".data).cmdline = none) :=
  ⟨⟨(c8_namespace_leak_mode_independent true [] "contains STUBBY_RT here".data
        [] [] (by rfl) (Or.inr (Or.inr (by decide)))).1,
      (c8_namespace_leak_mode_independent true []
        "contains STUBBY_RT here".data [] [] (by rfl)
        (Or.inr (Or.inr (by decide)))).2.2⟩,
    ⟨(c8_namespace_leak_mode_independent false []
        "contains STUBBY_RT here".data [] [] (by rfl)
        (Or.inr (Or.inr (by decide)))).1,
      (c8_namespace_leak_mode_independent false []
        "contains STUBBY_RT here".data [] [] (by rfl)
        (Or.inr (Or.inr (by decide)))).2.2⟩⟩

/-- C9: with a successful splice, no namespace collision, and a runtime
line failing token validation, the overall operation fails with the
violation in Secure mode but succeeds with the merged command line in
Insecure mode. -/
theorem c9_policy_downgrade (secure : Bool)
    (builtin runtime p1 p2 : List Char)
    (hsp : spliceBuiltin secure builtin runtime = .ok (p1, p2))
    (h1 : containsSub p1 nspace = false) (h2 : containsSub p2 nspace = false)
    (hr : containsSub runtime nspace = false)
    (hck : (check_cmdline runtime).status = .securityViolation) :
    get_cmdline_with_print secure builtin runtime =
      if secure then ⟨.securityViolation, none⟩
      else ⟨.success, some (p1 ++ runtime ++ p2)⟩ := by
  have hg := get_cmdline_ok hsp h1 h2 hr
  rw [hck] at hg
  cases secure
  · simp only [Bool.and_false, Bool.false_eq_true, if_false] at hg
    rw [get_cmdline_with_print, hg]
    simp
  · simp only [Bool.and_true] at hg
    rw [if_pos (by simp)] at hg
    rw [get_cmdline_with_print, hg]
    simp

/-- C9 witness: with empty builtin and the disallowed runtime `evilparam`,
Secure mode fails with the violation and Insecure mode succeeds with the
merged command line. -/
theorem c9_policy_downgrade_witness :
    get_cmdline_with_print true [] "evilparam".data =
        ⟨.securityViolation, none⟩ ∧
    get_cmdline_with_print false [] "evilparam".data =
        ⟨.success, some "evilparam".data⟩ :=
  ⟨(c9_policy_downgrade true [] "evilparam".data [] [] (by rfl) (by decide)
      (by decide) (by decide) (by decide)).trans (by decide),
    (c9_policy_downgrade false [] "evilparam".data [] [] (by rfl) (by decide)
      (by decide) (by decide) (by decide)).trans (by decide)⟩

/-- C10: a non-empty builtin without the marker (and without the namespace
string), merged in Secure mode with an empty runtime line, yields
EFI_SUCCESS with an empty command line: the builtin content is silently
discarded. -/
theorem c10_secure_empty_runtime_discards_builtin (builtin : List Char)
    (hne : builtin.length ≠ 0)
    (hnm : strstraIdx builtin marker = none)
    (hns : containsSub builtin nspace = false) :
    get_cmdline true builtin [] = ⟨.success, none, some []⟩ := by
  have hb : (builtin.length != 0) = true := by simpa using hne
  have hsp : spliceBuiltin true builtin [] = .ok ([], []) := by
    simp [spliceBuiltin, hb, hnm]
  have hc : check_cmdline ([] : List Char) = ⟨.success, none⟩ := rfl
  have hg := get_cmdline_ok hsp (by decide) (by decide) (by decide)
  rw [hc] at hg
  rw [hg]
  simp

/-- C10 witness: merge(Secure, `console=ttyS0`, ``) returns an empty
command line with EFI_SUCCESS. -/
theorem c10_secure_empty_runtime_discards_builtin_witness :
    get_cmdline true "console=ttyS0".data [] = ⟨.success, none, some []⟩ :=
  c10_secure_empty_runtime_discards_builtin "console=ttyS0".data (by decide)
    (by decide) (by decide)

end Stubby
